import Mathlib

/-!
Shallow embedding of `src/audi_cli.py` (audi-connect-dev): the login retry
state machine of `SafeAudiConnectAccount` (`login`, `try_login`) and the
command-layer operations of `AudiCLI` (`lock_vehicle`, `unlock_vehicle`,
`start_preheater`, `stop_preheater`, `set_charge_target`, `refresh_data`).

Conventions of the embedding:
* A call to the external service primitive `self._audi_service.login(...)`
  is modelled by an `AttemptResult`: either it returns normally (`ok`) or it
  raises an exception whose `str(...)` is the carried message (`fault msg`).
  A whole `login()` run is driven by `results : Nat → AttemptResult`, giving
  the outcome of the i-th underlying service call.
* Python string containment `pat in s` is `strContains s pat`;
  `str.lower()` is `strLower` (the messages involved are ASCII, where
  `Char.toLower` agrees with Python's `str.lower`).
* Logging calls are recorded as `LogEvent`s in the order they occur;
  `asyncio.sleep(self._connect_delay)` is counted in the `sleeps` field.
* `print(...)` output of the command layer is recorded as a list of the
  printed strings; whether `self.account.<dispatch>` was awaited is the
  `dispatched` flag; the Python return value is `retval`.
-/

namespace Audi

/-- Prefix test on character lists: `chPre p l` holds when `p` is an initial
segment of `l` (the pattern is the first argument). -/
def chPre : List Char → List Char → Bool
  | [], _ => true
  | _ :: _, [] => false
  | a :: as, b :: bs => a == b && chPre as bs

/-- Substring test on character lists: some suffix of the second list starts
with the pattern. An empty pattern is always contained, as for Python `in`. -/
def chSub (p : List Char) : List Char → Bool
  | [] => chPre p []
  | c :: cs => chPre p (c :: cs) || chSub p cs

/-- Python's `pat in s` substring containment. -/
def strContains (s pat : String) : Bool := chSub pat.data s.data

/-- Python's `s.lower()` on the ASCII strings that occur here. -/
def strLower (s : String) : String := ⟨s.data.map Char.toLower⟩

/-- Outcome of one call of the underlying service login primitive
`self._audi_service.login(self._username, self._password, False)`:
it either returns (success) or raises an exception carrying a message. -/
inductive AttemptResult where
  | ok : AttemptResult
  | fault : String → AttemptResult
deriving DecidableEq, Repr

/-- The throttling test of `try_login` (src/audi_cli.py:78):
`'throttled' in str(exception).lower()`. -/
def throttledExc (msg : String) : Bool :=
  strContains (strLower msg) "throttled"

/-- The throttling test of `login` (src/audi_cli.py:49):
`'throttled' in error_msg.lower() or 'error=login.error.throttled' in error_msg`. -/
def loginThrottleCheck (msg : String) : Bool :=
  strContains (strLower msg) "throttled" ||
    strContains msg "error=login.error.throttled"

/-- One logger call of `login`/`try_login`, keeping the data that varies. -/
inductive LogEvent where
  /-- `logger.debug("LOGIN: Requesting login to Audi service...")` -/
  | debugRequesting : LogEvent
  /-- `logger.debug("LOGIN: Login to Audi service successful")` -/
  | debugSuccess : LogEvent
  /-- `logger.error("LOGIN: Failed to log in to the Audi service: %s." ...)`,
  the terms-and-conditions message, emitted both by `try_login` when
  `logError` is true (src/audi_cli.py:81) and by `login` on the last
  attempt's except branch (src/audi_cli.py:62). -/
  | errLoginFailedTerms : String → LogEvent
  /-- `logger.error("LOGIN: Account is throttled. Please wait before trying again.")` -/
  | errThrottledWait : LogEvent
  /-- `logger.error(f"Error message: {error_msg}")` -/
  | errThrottledMsg : String → LogEvent
  /-- `logger.error("LOGIN: Login to Audi service failed, trying again in %d seconds", ...)` -/
  | errRetryingIn : Nat → LogEvent
deriving DecidableEq, Repr

/-- `SafeAudiConnectAccount.try_login(logError)` (src/audi_cli.py:69-86),
with the service call's behaviour given by `r`. Returns the Python result
(`Except.error msg` models a propagated exception) and the logs emitted. -/
def try_login (logError : Bool) (r : AttemptResult) :
    Except String Bool × List LogEvent :=
  match r with
  | .ok => (.ok true, [.debugRequesting, .debugSuccess])
  | .fault msg =>
      if throttledExc msg then
        (.error msg, [.debugRequesting])
      else
        (.ok false,
          [.debugRequesting] ++
            if logError then [.errLoginFailedTerms msg] else [])

/-- Everything observable about one `SafeAudiConnectAccount.login()` call:
the returned value, the recorded `self._logintime`, the number of underlying
service-login calls made, the number of `asyncio.sleep` calls, and the logs. -/
structure LoginTrace where
  result : Bool
  logintime : Option Nat
  attempts : Nat
  sleeps : Nat
  logs : List LogEvent
deriving DecidableEq, Repr

/-- The body of the `for i in range(self._connect_retries)` loop of
`SafeAudiConnectAccount.login` (src/audi_cli.py:40-66), unrolled with
explicit fuel: `fuel` is the number of loop iterations still allowed
(initially `retries`, so `i + fuel = retries` throughout), `loggedin` is
`self._loggedin`, `lt` is `self._logintime`, and `attempts`, `sleeps`,
`logs` accumulate the observations made so far. -/
def loginGo (results : Nat → AttemptResult) (retries delay now : Nat) :
    Nat → Nat → Bool → Option Nat → Nat → Nat → List LogEvent → LoginTrace
  | _, 0, loggedin, lt, attempts, sleeps, logs =>
      { result := loggedin, logintime := lt, attempts := attempts,
        sleeps := sleeps, logs := logs }
  | i, fuel + 1, loggedin, lt, attempts, sleeps, logs =>
      match try_login (i == retries - 1) (results i) with
      | (.ok b, lgs) =>
          if b then
            { result := true, logintime := some now, attempts := attempts + 1,
              sleeps := sleeps, logs := logs ++ lgs }
          else
            loginGo results retries delay now (i + 1) fuel false lt
              (attempts + 1) sleeps (logs ++ lgs)
      | (.error msg, lgs) =>
          if loginThrottleCheck msg then
            { result := false, logintime := lt, attempts := attempts + 1,
              sleeps := sleeps,
              logs := logs ++ lgs ++ [.errThrottledWait, .errThrottledMsg msg] }
          else if i < retries - 1 then
            loginGo results retries delay now (i + 1) fuel loggedin lt
              (attempts + 1) (sleeps + 1)
              (logs ++ lgs ++ [.errRetryingIn delay])
          else
            loginGo results retries delay now (i + 1) fuel loggedin lt
              (attempts + 1) sleeps
              (logs ++ lgs ++ [.errLoginFailedTerms msg])

/-- `SafeAudiConnectAccount.login()` (src/audi_cli.py:38-67).
`retries` is `self._connect_retries`, `delay` is `self._connect_delay`,
`now` is the clock value `time.time()` would return; `self._loggedin`
starts `False` (set by the base-class constructor). -/
def login (results : Nat → AttemptResult) (retries delay now : Nat) : LoginTrace :=
  loginGo results retries delay now 0 retries false none 0 0 []

/-- Python truthiness of `self.spin : Optional[str]` as used by
`if not self.spin`: `None` and the empty string are falsy. -/
def pyTruthyStr : Option String → Bool
  | none => false
  | some s => !s.isEmpty

/-- Everything observable about one command-layer method call of `AudiCLI`:
whether the underlying `self.account.<...>` dispatch coroutine was awaited,
the `print(...)` output in order, and the Python return value (a boolean
for every command modelled here except `refresh_data`). -/
structure CommandRun where
  dispatched : Bool
  output : List String
  retval : Bool
deriving DecidableEq, Repr

/-- `AudiCLI.lock_vehicle(vin)` (src/audi_cli.py:418-430); `dr` is the value
`await self.account.set_vehicle_lock(vin, True)` would return. -/
def lock_vehicle (spin : Option String) (vin : String) (dr : Bool) : CommandRun :=
  if !pyTruthyStr spin then
    { dispatched := false,
      output := ["ERROR: S-PIN is required for lock operations"],
      retval := false }
  else
    { dispatched := true,
      output := [s!"Locking vehicle {vin}..."] ++
        (if dr then ["Vehicle locked successfully"] else ["Failed to lock vehicle"]),
      retval := dr }

/-- `AudiCLI.unlock_vehicle(vin)` (src/audi_cli.py:432-444). -/
def unlock_vehicle (spin : Option String) (vin : String) (dr : Bool) : CommandRun :=
  if !pyTruthyStr spin then
    { dispatched := false,
      output := ["ERROR: S-PIN is required for unlock operations"],
      retval := false }
  else
    { dispatched := true,
      output := [s!"Unlocking vehicle {vin}..."] ++
        (if dr then ["Vehicle unlocked successfully"] else ["Failed to unlock vehicle"]),
      retval := dr }

/-- `AudiCLI.start_preheater(vin, duration)` (src/audi_cli.py:518-530). -/
def start_preheater (spin : Option String) (vin : String) (duration : Int)
    (dr : Bool) : CommandRun :=
  if !pyTruthyStr spin then
    { dispatched := false,
      output := ["ERROR: S-PIN is required for pre-heater operations"],
      retval := false }
  else
    { dispatched := true,
      output := [s!"Starting pre-heater for {vin} for {duration} minutes..."] ++
        (if dr then ["Pre-heater started successfully"] else ["Failed to start pre-heater"]),
      retval := dr }

/-- `AudiCLI.stop_preheater(vin)` (src/audi_cli.py:532-544). -/
def stop_preheater (spin : Option String) (vin : String) (dr : Bool) : CommandRun :=
  if !pyTruthyStr spin then
    { dispatched := false,
      output := ["ERROR: S-PIN is required for pre-heater operations"],
      retval := false }
  else
    { dispatched := true,
      output := [s!"Stopping pre-heater for {vin}..."] ++
        (if dr then ["Pre-heater stopped successfully"] else ["Failed to stop pre-heater"]),
      retval := dr }

/-- `AudiCLI.set_charge_target(vin, target_soc)` (src/audi_cli.py:503-515);
Python `int` is modelled as `Int`. The guard is
`if not (20 <= target_soc <= 100)`. -/
def set_charge_target (vin : String) (target_soc : Int) (dr : Bool) : CommandRun :=
  if ¬(20 ≤ target_soc ∧ target_soc ≤ 100) then
    { dispatched := false,
      output := ["ERROR: Target charge must be between 20% and 100%"],
      retval := false }
  else
    { dispatched := true,
      output := [s!"Setting target charge to {target_soc}% for {vin}..."] ++
        (if dr then [s!"Target charge set to {target_soc}% successfully"]
         else ["Failed to set target charge"]),
      retval := dr }

/-- The value `await self.account.refresh_vehicle_data(vin)` can take, as
`AudiCLI.refresh_data` distinguishes it: the boolean `True`, the string
sentinel `"disabled"`, or anything else (a failure, e.g. `False`). -/
inductive RefreshResult where
  | rtrue : RefreshResult
  | rdisabled : RefreshResult
  | rfalse : RefreshResult
deriving DecidableEq, Repr

/-- Everything observable about one `AudiCLI.refresh_data` call: the printed
output and the returned value (returned unchanged from the dispatch). -/
structure RefreshRun where
  output : List String
  retval : RefreshResult
deriving DecidableEq, Repr

/-- `AudiCLI.refresh_data(vin)` (src/audi_cli.py:566-577): the
`if result is True / elif result == "disabled" / else` classification. -/
def refresh_data (vin : String) (dr : RefreshResult) : RefreshRun :=
  { output := [s!"Requesting fresh data from vehicle {vin}..."] ++
      (if dr = .rtrue then ["Data refresh initiated successfully"]
       else if dr = .rdisabled then ["Data refresh is disabled for this vehicle"]
       else ["Failed to refresh vehicle data"]),
    retval := dr }

/-- The spec's CommandOutcome taxonomy: Succeeded, Failed, Disabled. -/
inductive CommandOutcome where
  | Succeeded : CommandOutcome
  | Failed : CommandOutcome
  | Disabled : CommandOutcome
deriving DecidableEq, Repr

/-- The outcome of a `refresh_data` call, read off from the same branch
structure the code uses on the dispatch value (src/audi_cli.py:571-576):
`result is True` is the success branch, `result == "disabled"` the
disabled branch, anything else the failure branch. -/
def refreshOutcome (dr : RefreshResult) : CommandOutcome :=
  if dr = .rtrue then .Succeeded
  else if dr = .rdisabled then .Disabled
  else .Failed

/-- A service-call outcome that raises a generic, non-throttling fault. -/
def genericFault (r : AttemptResult) : Prop :=
  ∃ m, r = .fault m ∧ throttledExc m = false

/-! ### Helper lemmas about the login loop -/

/-- Step equation: an iteration whose service call succeeds breaks out of the
loop with `self._loggedin = True` and the login time recorded. -/
theorem loginGo_succ_ok (results : Nat → AttemptResult)
    (retries delay now i f : Nat) (b : Bool) (lt : Option Nat)
    (a s : Nat) (logs : List LogEvent) (hm : results i = .ok) :
    loginGo results retries delay now i (f + 1) b lt a s logs =
      { result := true, logintime := some now, attempts := a + 1,
        sleeps := s, logs := logs ++ [.debugRequesting, .debugSuccess] } := by
  simp [loginGo, hm, try_login]

/-- Step equation: an iteration whose service call raises a throttling fault
returns `False` at once with the two throttling log lines. -/
theorem loginGo_succ_throttled (results : Nat → AttemptResult)
    (retries delay now i f : Nat) (b : Bool) (lt : Option Nat)
    (a s : Nat) (logs : List LogEvent) (m : String)
    (hm : results i = .fault m) (ht : throttledExc m = true) :
    loginGo results retries delay now i (f + 1) b lt a s logs =
      { result := false, logintime := lt, attempts := a + 1, sleeps := s,
        logs := logs ++
          [.debugRequesting, .errThrottledWait, .errThrottledMsg m] } := by
  have hc : loginThrottleCheck m = true := by
    unfold loginThrottleCheck
    unfold throttledExc at ht
    rw [ht]
    rfl
  simp [loginGo, hm, try_login, ht, hc]

/-- Step equation: an iteration whose service call raises a generic fault has
`try_login` swallow the exception and return `False`, so the loop moves on to
the next iteration with no sleep (the retry-delay branch of `login` is
unreachable: only throttling faults are re-raised by `try_login`). -/
theorem loginGo_succ_generic (results : Nat → AttemptResult)
    (retries delay now i f : Nat) (b : Bool) (lt : Option Nat)
    (a s : Nat) (logs : List LogEvent) (m : String)
    (hm : results i = .fault m) (ht : throttledExc m = false) :
    loginGo results retries delay now i (f + 1) b lt a s logs =
      loginGo results retries delay now (i + 1) f false lt (a + 1) s
        (logs ++ ([.debugRequesting] ++
          if (i == retries - 1) = true then [.errLoginFailedTerms m] else [])) := by
  simp [loginGo, hm, try_login, ht]

/-- Each loop iteration makes exactly one underlying service call, so the
accumulated attempt count grows by at most the remaining fuel. -/
theorem loginGo_attempts_le (results : Nat → AttemptResult)
    (retries delay now : Nat) :
    ∀ fuel i b lt a s logs,
      (loginGo results retries delay now i fuel b lt a s logs).attempts ≤
        a + fuel := by
  intro fuel
  induction fuel with
  | zero =>
      intro i b lt a s logs
      simp [loginGo]
  | succ f ih =>
      intro i b lt a s logs
      cases hr : results i with
      | ok =>
          rw [loginGo_succ_ok results retries delay now i f b lt a s logs hr]
          simp
      | fault msg =>
          cases ht : throttledExc msg with
          | true =>
              rw [loginGo_succ_throttled results retries delay now i f b lt
                a s logs msg hr ht]
              simp
          | false =>
              rw [loginGo_succ_generic results retries delay now i f b lt
                a s logs msg hr ht]
              exact le_trans (ih (i + 1) false lt (a + 1) s _) (by omega)

/-- If the first service call raises a throttling fault, `login` stops after
that single attempt: it returns `False` with the two throttling log lines,
makes no further service call, never sleeps, and records no login time. -/
theorem login_throttled_first (results : Nat → AttemptResult)
    (retries delay now : Nat) (msg : String)
    (hN : 1 ≤ retries) (h0 : results 0 = .fault msg)
    (ht : throttledExc msg = true) :
    login results retries delay now =
      { result := false, logintime := none, attempts := 1, sleeps := 0,
        logs := [.debugRequesting, .errThrottledWait, .errThrottledMsg msg] } := by
  obtain ⟨k, rfl⟩ : ∃ k, retries = k + 1 := ⟨retries - 1, by omega⟩
  unfold login
  rw [loginGo_succ_throttled results (k + 1) delay now 0 k false none 0 0 []
    msg h0 ht]
  rfl

/-- If the first service call succeeds, `login` returns `True` after that
single call, records the login time, and neither retries nor sleeps. -/
theorem login_first_ok (results : Nat → AttemptResult)
    (retries delay now : Nat) (hN : 1 ≤ retries) (h0 : results 0 = .ok) :
    login results retries delay now =
      { result := true, logintime := some now, attempts := 1, sleeps := 0,
        logs := [.debugRequesting, .debugSuccess] } := by
  obtain ⟨k, rfl⟩ : ∃ k, retries = k + 1 := ⟨retries - 1, by omega⟩
  unfold login
  rw [loginGo_succ_ok results (k + 1) delay now 0 k false none 0 0 [] h0]
  rfl

/-- On a run of generic (non-throttling) faults the loop consumes all its
fuel, one service call per iteration, without sleeping, without setting the
login time, and without ever logging the throttling message; the
accumulated result is `False`. -/
theorem loginGo_generic (results : Nat → AttemptResult)
    (retries delay now : Nat) :
    ∀ fuel i lt a s logs,
      (∀ j, j < fuel → genericFault (results (i + j))) →
      (loginGo results retries delay now i fuel false lt a s logs).result
          = false ∧
      (loginGo results retries delay now i fuel false lt a s logs).logintime
          = lt ∧
      (loginGo results retries delay now i fuel false lt a s logs).attempts
          = a + fuel ∧
      (loginGo results retries delay now i fuel false lt a s logs).sleeps
          = s ∧
      ((LogEvent.errThrottledWait ∈
          (loginGo results retries delay now i fuel false lt a s logs).logs) ↔
        (LogEvent.errThrottledWait ∈ logs)) := by
  intro fuel
  induction fuel with
  | zero =>
      intro i lt a s logs hg
      simp [loginGo]
  | succ f ih =>
      intro i lt a s logs hg
      obtain ⟨m, hm, hmt⟩ := hg 0 (by omega)
      rw [Nat.add_zero] at hm
      have hg' : ∀ j, j < f → genericFault (results ((i + 1) + j)) := by
        intro j hj
        have := hg (j + 1) (by omega)
        rwa [show i + (j + 1) = (i + 1) + j by omega] at this
      rw [loginGo_succ_generic results retries delay now i f false lt
        a s logs m hm hmt]
      have hrec := ih (i + 1) lt (a + 1) s
        (logs ++ ([.debugRequesting] ++
          if (i == retries - 1) = true then [.errLoginFailedTerms m] else []))
        hg'
      refine ⟨hrec.1, hrec.2.1, by rw [hrec.2.2.1]; omega, hrec.2.2.2.1, ?_⟩
      rw [hrec.2.2.2.2]
      by_cases hlast : (i == retries - 1) = true <;>
        simp [hlast, List.mem_append]

/-! ### Claim theorems -/

/-- C1: for every configured max-attempts greater than 1, if the first
underlying login attempt raises a fault whose message contains the
throttling marker (case-insensitive substring), `login` stops immediately
with the throttled outcome — it returns `False` with the throttling log
lines after exactly one underlying attempt, no further attempts, and no
retry-delay sleep. -/
theorem login_throttled_stops_after_one_attempt
    (results : Nat → AttemptResult) (retries delay now : Nat) (msg : String)
    (hN : 1 < retries) (h0 : results 0 = .fault msg)
    (ht : throttledExc msg = true) :
    login results retries delay now =
      { result := false, logintime := none, attempts := 1, sleeps := 0,
        logs := [.debugRequesting, .errThrottledWait, .errThrottledMsg msg] } :=
  login_throttled_first results retries delay now msg (by omega) h0 ht

/-- Witness for C1 at a concrete throttling run with max-attempts 3. -/
theorem login_throttled_stops_after_one_attempt_witness :
    login (fun _ => .fault "error=login.error.throttled") 3 5 7 =
      { result := false, logintime := none, attempts := 1, sleeps := 0,
        logs := [.debugRequesting, .errThrottledWait,
          .errThrottledMsg "error=login.error.throttled"] } :=
  login_throttled_stops_after_one_attempt
    (fun _ => .fault "error=login.error.throttled") 3 5 7
    "error=login.error.throttled" (by omega) rfl (by decide)

/-- C2 (failing input): with max-attempts 2, a generic fault on the first
attempt followed by success on the second, the code performs the retry
immediately: two underlying attempts, success, but ZERO retry-delay sleeps
where the claim demands exactly one. `try_login` swallows every
non-throttling exception and returns `False`, so `login`'s sleep branch
(src/audi_cli.py:55-60) can never run. -/
theorem login_generic_then_success_performs_no_sleep :
    login (fun j => if j = 0 then .fault "socket timeout" else .ok) 2 5 7 =
      { result := true, logintime := some 7, attempts := 2, sleeps := 0,
        logs := [.debugRequesting, .debugRequesting, .debugSuccess] } := by
  decide

/-- C3 (counterexample): a run whose first attempt raises a throttling fault
and a run whose three attempts all raise generic faults return the very same
value (`False`), so the value returned by `login` does NOT distinguish the
throttled outcome from the exhausted outcome. -/
theorem login_throttled_and_exhausted_return_equal_values :
    (login (fun _ => .fault "error=login.error.throttled") 3 5 7).result =
      (login (fun _ => .fault "connection reset") 3 5 7).result ∧
    LogEvent.errThrottledWait ∈
      (login (fun _ => .fault "error=login.error.throttled") 3 5 7).logs ∧
    (login (fun _ => .fault "connection reset") 3 5 7).attempts = 3 ∧
    (login (fun _ => .fault "connection reset") 3 5 7).result = false := by
  decide

/-- C3 (amended): the returned value does not distinguish throttling from
exhaustion — both runs return `False`; the two runs are distinguishable
only by the log messages they emit: a throttled run logs the
account-throttled message, which an exhausted run never logs, so the two
log traces always differ. -/
theorem login_throttled_vs_exhausted_distinguished_only_by_logs
    (results1 results2 : Nat → AttemptResult)
    (retries1 retries2 delay1 delay2 now1 now2 : Nat) (msg : String)
    (hN1 : 1 ≤ retries1) (h01 : results1 0 = .fault msg)
    (ht : throttledExc msg = true) (_hN2 : 1 ≤ retries2)
    (hg : ∀ j, j < retries2 → genericFault (results2 j)) :
    (login results1 retries1 delay1 now1).result = false ∧
    (login results2 retries2 delay2 now2).result = false ∧
    LogEvent.errThrottledWait ∈ (login results1 retries1 delay1 now1).logs ∧
    LogEvent.errThrottledWait ∉ (login results2 retries2 delay2 now2).logs ∧
    (login results1 retries1 delay1 now1).logs ≠
      (login results2 retries2 delay2 now2).logs := by
  have h1 := login_throttled_first results1 retries1 delay1 now1 msg hN1 h01 ht
  have h2 := loginGo_generic results2 retries2 delay2 now2 retries2 0 none 0 0 []
    (by simpa using hg)
  have hw2 : LogEvent.errThrottledWait ∉
      (login results2 retries2 delay2 now2).logs := by
    unfold login
    rw [h2.2.2.2.2]
    simp
  have hr2 : (login results2 retries2 delay2 now2).result = false := h2.1
  rw [h1]
  refine ⟨rfl, hr2, by simp, hw2, ?_⟩
  intro hEq
  apply hw2
  rw [← hEq]
  simp

/-- Witness for the amended C3 at concrete throttled and exhausted runs. -/
theorem login_throttled_vs_exhausted_distinguished_only_by_logs_witness :
    (login (fun _ => .fault "User is THROTTLED") 2 5 7).result = false ∧
    (login (fun _ => .fault "timeout") 2 6 8).result = false ∧
    LogEvent.errThrottledWait ∈
      (login (fun _ => .fault "User is THROTTLED") 2 5 7).logs ∧
    LogEvent.errThrottledWait ∉
      (login (fun _ => .fault "timeout") 2 6 8).logs ∧
    (login (fun _ => .fault "User is THROTTLED") 2 5 7).logs ≠
      (login (fun _ => .fault "timeout") 2 6 8).logs :=
  login_throttled_vs_exhausted_distinguished_only_by_logs
    (fun _ => .fault "User is THROTTLED") (fun _ => .fault "timeout")
    2 2 5 6 7 8 "User is THROTTLED" (by omega) rfl (by decide) (by omega)
    (fun j hj => ⟨"timeout", rfl, by decide⟩)

/-- C4: for every max-attempts ≥ 1, if the first underlying attempt
succeeds, `login` returns `True`, records the authenticated-at timestamp,
makes exactly one underlying call, no further attempts, and no sleep. -/
theorem login_first_success_single_call
    (results : Nat → AttemptResult) (retries delay now : Nat)
    (hN : 1 ≤ retries) (h0 : results 0 = .ok) :
    login results retries delay now =
      { result := true, logintime := some now, attempts := 1, sleeps := 0,
        logs := [.debugRequesting, .debugSuccess] } :=
  login_first_ok results retries delay now hN h0

/-- Witness for C4 at a concrete always-successful run with max-attempts 4. -/
theorem login_first_success_single_call_witness :
    login (fun _ => .ok) 4 5 9 =
      { result := true, logintime := some 9, attempts := 1, sleeps := 0,
        logs := [.debugRequesting, .debugSuccess] } :=
  login_first_success_single_call (fun _ => .ok) 4 5 9 (by omega) rfl

/-- C5: for max-attempts = N and N consecutive generic (non-throttling)
faults, `login` makes exactly N underlying attempts and returns the failed
(exhausted) outcome `False`, with no further attempts (and, in fact, no
sleeps). -/
theorem login_all_generic_faults_exhausts_all_attempts
    (results : Nat → AttemptResult) (retries delay now : Nat)
    (_hN : 1 ≤ retries) (hg : ∀ j, j < retries → genericFault (results j)) :
    (login results retries delay now).attempts = retries ∧
    (login results retries delay now).result = false ∧
    (login results retries delay now).sleeps = 0 := by
  have h := loginGo_generic results retries delay now retries 0 none 0 0 []
    (by simpa using hg)
  exact ⟨by simpa [login] using h.2.2.1, h.1, h.2.2.2.1⟩

/-- Witness for C5 at a concrete run of three generic faults. -/
theorem login_all_generic_faults_exhausts_all_attempts_witness :
    (login (fun _ => .fault "connection reset") 3 5 7).attempts = 3 ∧
    (login (fun _ => .fault "connection reset") 3 5 7).result = false ∧
    (login (fun _ => .fault "connection reset") 3 5 7).sleeps = 0 :=
  login_all_generic_faults_exhausts_all_attempts
    (fun _ => .fault "connection reset") 3 5 7 (by omega)
    (fun j hj => ⟨"connection reset", rfl, by decide⟩)

/-- C6: each PIN-requiring command (lock, unlock, pre-heater start,
pre-heater stop) with no security PIN present fails the precondition check:
it prints the "S-PIN is required" error, returns `False`, and never awaits
the underlying vehicle-service dispatch. -/
theorem pin_commands_require_spin (spin : Option String) (vin : String)
    (duration : Int) (dr : Bool) (h : pyTruthyStr spin = false) :
    lock_vehicle spin vin dr =
      { dispatched := false,
        output := ["ERROR: S-PIN is required for lock operations"],
        retval := false } ∧
    unlock_vehicle spin vin dr =
      { dispatched := false,
        output := ["ERROR: S-PIN is required for unlock operations"],
        retval := false } ∧
    start_preheater spin vin duration dr =
      { dispatched := false,
        output := ["ERROR: S-PIN is required for pre-heater operations"],
        retval := false } ∧
    stop_preheater spin vin dr =
      { dispatched := false,
        output := ["ERROR: S-PIN is required for pre-heater operations"],
        retval := false } := by
  simp [lock_vehicle, unlock_vehicle, start_preheater, stop_preheater, h]

/-- Witness for C6 with no PIN configured. -/
theorem pin_commands_require_spin_witness :
    lock_vehicle none "WAUZZZ" true =
      { dispatched := false,
        output := ["ERROR: S-PIN is required for lock operations"],
        retval := false } ∧
    unlock_vehicle none "WAUZZZ" true =
      { dispatched := false,
        output := ["ERROR: S-PIN is required for unlock operations"],
        retval := false } ∧
    start_preheater none "WAUZZZ" 30 true =
      { dispatched := false,
        output := ["ERROR: S-PIN is required for pre-heater operations"],
        retval := false } ∧
    stop_preheater none "WAUZZZ" true =
      { dispatched := false,
        output := ["ERROR: S-PIN is required for pre-heater operations"],
        retval := false } :=
  pin_commands_require_spin none "WAUZZZ" 30 true rfl

/-- C7: `set_charge_target` rejects every target outside [20,100] with the
validation error before any dispatch, and dispatches every target inside
[20,100] inclusive. -/
theorem set_charge_target_range_validation (vin : String) (t : Int)
    (dr : Bool) :
    (t < 20 ∨ 100 < t →
        set_charge_target vin t dr =
          { dispatched := false,
            output := ["ERROR: Target charge must be between 20% and 100%"],
            retval := false }) ∧
    (20 ≤ t → t ≤ 100 → (set_charge_target vin t dr).dispatched = true) := by
  constructor
  · intro h
    have hn : ¬(20 ≤ t ∧ t ≤ 100) := by omega
    simp [set_charge_target, hn]
  · intro h1 h2
    simp [set_charge_target, h1, h2]

/-- Witness for C7 at the boundary values 19, 101, 20 and 100. -/
theorem set_charge_target_range_validation_witness :
    (set_charge_target "WAU" 19 true).dispatched = false ∧
    (set_charge_target "WAU" 101 true).dispatched = false ∧
    (set_charge_target "WAU" 20 true).dispatched = true ∧
    (set_charge_target "WAU" 100 true).dispatched = true :=
  ⟨by rw [(set_charge_target_range_validation "WAU" 19 true).1 (by omega)],
   by rw [(set_charge_target_range_validation "WAU" 101 true).1 (by omega)],
   (set_charge_target_range_validation "WAU" 20 true).2 (by omega) (by omega),
   (set_charge_target_range_validation "WAU" 100 true).2 (by omega) (by omega)⟩

/-- C8: `refresh_data` classifies the dispatch value into three distinct
outcomes: `True` → Succeeded, the `"disabled"` sentinel → Disabled, a false
return → Failed; Disabled is distinct from Failed, the disabled sentinel
prints its own message, and the returned values also stay distinct. -/
theorem refresh_disabled_distinct_outcome (vin : String) :
    refreshOutcome .rtrue = .Succeeded ∧
    refreshOutcome .rfalse = .Failed ∧
    refreshOutcome .rdisabled = .Disabled ∧
    CommandOutcome.Disabled ≠ CommandOutcome.Failed ∧
    (refresh_data vin .rdisabled).output =
      [s!"Requesting fresh data from vehicle {vin}...",
        "Data refresh is disabled for this vehicle"] ∧
    (refresh_data vin .rdisabled).retval ≠ (refresh_data vin .rfalse).retval := by
  refine ⟨rfl, rfl, rfl, by decide, rfl, by simp [refresh_data]⟩

/-- C9: in every single `login` call, whatever the sequence of attempt
results, the number of underlying service-login invocations never exceeds
the configured max-attempts. -/
theorem login_attempts_never_exceed_retries
    (results : Nat → AttemptResult) (retries delay now : Nat) :
    (login results retries delay now).attempts ≤ retries := by
  have h := loginGo_attempts_le results retries delay now retries 0 false
    none 0 0 []
  simpa [login] using h

/-- C10: `try_login` re-raises an exception exactly when its string contains
`throttled` case-insensitively; any other fault is caught and turned into
the return value `False`; consequently every exception reaching `login`'s
except branch satisfies `login`'s own throttling check. -/
theorem try_login_propagates_only_throttling (logError : Bool) :
    (∀ msg, throttledExc msg = false →
        try_login logError (.fault msg) =
          (.ok false, [.debugRequesting] ++
            if logError then [.errLoginFailedTerms msg] else [])) ∧
    (∀ msg, throttledExc msg = true →
        try_login logError (.fault msg) = (.error msg, [.debugRequesting])) ∧
    (∀ r m, (try_login logError r).1 = .error m →
        throttledExc m = true ∧ loginThrottleCheck m = true) := by
  refine ⟨?_, ?_, ?_⟩
  · intro msg h
    simp [try_login, h]
  · intro msg h
    simp [try_login, h]
  · intro r m h
    cases r with
    | ok => simp [try_login] at h
    | fault msg =>
        cases ht : throttledExc msg with
        | false => simp [try_login, ht] at h
        | true =>
            simp [try_login, ht] at h
            subst h
            refine ⟨ht, ?_⟩
            unfold loginThrottleCheck
            unfold throttledExc at ht
            rw [ht]
            rfl

/-- Witness for C10: a generic fault is swallowed, a throttling fault is
re-raised. -/
theorem try_login_propagates_only_throttling_witness :
    try_login true (.fault "connection reset") =
      (.ok false, [.debugRequesting, .errLoginFailedTerms "connection reset"]) ∧
    try_login false (.fault "account throttled") =
      (.error "account throttled", [.debugRequesting]) :=
  ⟨by
    rw [(try_login_propagates_only_throttling true).1 "connection reset"
      (by decide)]
    rfl,
   (try_login_propagates_only_throttling false).2.1 "account throttled"
      (by decide)⟩

end Audi
